import Mathlib

/-!
Verification of the embedding-fetch module (`src/lib/ai/embeddings.ts`) and the
manual pipeline-trigger control of the job-alert application.

The TypeScript functions are shallowly embedded as pure Lean functions.  The
network is modelled as an environment `env : Nat → FetchOutcome` giving, for
each attempt number, what the single `fetch` of that attempt does: either throw
a network-level exception or deliver a response (status, error text, parsed
JSON body).  A body whose `response.json()` call would itself throw is modelled
as a `FetchOutcome.throw`, since the code handles both identically (the
exception reaches the same `catch` block after the request has been issued).
Observable effects (requests issued, backoff waits, the preference-store
lookup) are collected in an event trace.  Embedding entries are modelled as
integers: the code never inspects the numeric values, only array shape and
length.
-/

/-- The `embedding` field of `result.data[0]`: in JS it is either not an array
(absent, `null`, a scalar, ...) or an array of numbers. -/
inductive EmbField where
  | notArr : EmbField
  | arr : List Int → EmbField
deriving DecidableEq

/-- An element of `result.data`: a falsy value (fails the `!result.data[0]`
check) or an object carrying an `embedding` field. -/
inductive ItemVal where
  | falsy : ItemVal
  | obj : EmbField → ItemVal
deriving DecidableEq

/-- The `data` field of the parsed response: absent/falsy, present but not an
array, or an array of items. -/
inductive DataField where
  | missing : DataField
  | notArray : DataField
  | arr : List ItemVal → DataField
deriving DecidableEq

/-- The parsed JSON body of a response (`result` in the source). -/
structure RespJson where
  data : DataField
deriving DecidableEq

/-- What one `fetch` call does: throw a network-level exception (carrying the
exception's message), or return a response with an HTTP status, the text body
read on the error path (`response.text()`), and the parsed JSON body read on
the success path (`response.json()`). -/
inductive FetchOutcome where
  | throw : String → FetchOutcome
  | resp : Nat → String → RespJson → FetchOutcome

/-- The errors `generateEmbedding` / `generateUserSkillsEmbedding` can throw,
one constructor per `throw new Error(...)` site of the source. -/
inductive JinaError where
  /-- `JINA_API_KEY environment variable is not set` (the spec's ConfigError for the credential). -/
  | configError : JinaError
  /-- `Jina AI API returned S: body` (the spec's ProviderError for an HTTP failure). -/
  | providerStatus : Nat → String → JinaError
  /-- `Invalid response format from Jina AI`. -/
  | invalidFormat : JinaError
  /-- `Embedding is not an array`. -/
  | notAnArray : JinaError
  /-- `Expected 768 dimensions, got N`. -/
  | wrongDimensions : Nat → JinaError
  /-- A network-level exception propagated from `fetch`, carrying its message. -/
  | networkError : String → JinaError
  /-- `Failed to generate embedding after all retries` (the defensive fallback after the loop). -/
  | allRetriesFailed : JinaError
  /-- `User preferences not set. Please configure your skills in the database.` -/
  | prefsNotSet : JinaError
deriving DecidableEq

/-- Observable events of one call: an HTTP request to the embedding provider
(numbered by attempt), a backoff wait in milliseconds, or the single-row read
of the `user_preferences` store. -/
inductive Event where
  | request : Nat → Event
  | wait : Nat → Event
  | prefQuery : Event
deriving DecidableEq

/-- JS truthiness of the `JINA_API_KEY` environment variable: `undefined`
(none) and the empty string are falsy. -/
def jsTruthyStr : Option String → Bool
  | none => false
  | some s => !s.isEmpty

/-- Lines 60-78 of the source: extract and validate the embedding from the
parsed JSON of a success response.
`!result.data || !Array.isArray(result.data) || !result.data[0]` throws
`Invalid response format from Jina AI`; a non-array `embedding` throws
`Embedding is not an array`; a length other than 768 throws
`Expected 768 dimensions, got N`. -/
def parseEmbedding (json : RespJson) : Except JinaError (List Int) :=
  match json.data with
  | .missing => .error .invalidFormat
  | .notArray => .error .invalidFormat
  | .arr [] => .error .invalidFormat
  | .arr (.falsy :: _) => .error .invalidFormat
  | .arr (.obj emb :: _) =>
      match emb with
      | .notArr => .error .notAnArray
      | .arr v =>
          if v.length ≠ 768 then .error (.wrongDimensions v.length)
          else .ok v

/-- Outcome of the `try` block of one loop iteration: return a vector,
`continue` to the next attempt after waiting (the two in-branch retry paths
for 429 and ≥500), or throw an error (which the `catch` block then handles). -/
inductive TryResult where
  | ret : List Int → TryResult
  | cont : Nat → TryResult
  | thrown : JinaError → TryResult
deriving DecidableEq

/-- The `try` block of one iteration (lines 20-83).  `response.ok` is status
200-299.  On a non-ok status: 429 with attempts remaining waits
`2^attempt * 5000` and continues; status ≥ 500 with attempts remaining waits
5000 and continues; otherwise `Jina AI API returned ...` is thrown (note: this
throw is inside the `try`, so it reaches the `catch` block).  On an ok status
the body is parsed and validated; validation throws also reach the `catch`. -/
def tryBody (env : Nat → FetchOutcome) (maxRetries attempt : Nat) : TryResult :=
  match env attempt with
  | .throw e => .thrown (.networkError e)
  | .resp status errorText json =>
      if 200 ≤ status ∧ status ≤ 299 then
        match parseEmbedding json with
        | .ok v => .ret v
        | .error e => .thrown e
      else
        if status = 429 ∧ attempt < maxRetries then .cont (2 ^ attempt * 5000)
        else if 500 ≤ status ∧ attempt < maxRetries then .cont 5000
        else .thrown (.providerStatus status errorText)

/-- The `for (let attempt = 1; attempt <= maxRetries; attempt++)` loop,
written with explicit fuel `maxRetries + 1 - attempt` (the number of loop
iterations still allowed) so the recursion is structural.  Fuel 0 means the
loop guard `attempt <= maxRetries` failed and the defensive fallback after the
loop runs.  The `catch` block (lines 84-96): rethrow on the final attempt,
otherwise wait `2^attempt * 2000` and move to the next attempt. -/
def runAttemptsAux (env : Nat → FetchOutcome) (maxRetries : Nat) :
    Nat → Nat → Except JinaError (List Int) × List Event
  | 0, _ => (.error .allRetriesFailed, [])
  | fuel + 1, attempt =>
      match tryBody env maxRetries attempt with
      | .ret v => (.ok v, [.request attempt])
      | .cont w =>
          let rest := runAttemptsAux env maxRetries fuel (attempt + 1)
          (rest.1, .request attempt :: .wait w :: rest.2)
      | .thrown e =>
          if attempt = maxRetries then (.error e, [.request attempt])
          else
            let rest := runAttemptsAux env maxRetries fuel (attempt + 1)
            (rest.1, .request attempt :: .wait (2 ^ attempt * 2000) :: rest.2)

/-- The attempt loop entered at a given attempt number. -/
def runAttempts (env : Nat → FetchOutcome) (maxRetries attempt : Nat) :
    Except JinaError (List Int) × List Event :=
  runAttemptsAux env maxRetries (maxRetries + 1 - attempt) attempt

/-- `generateEmbedding` (lines 12-100): fail with the ConfigError if the API
key is falsy, otherwise run the attempt loop with `maxRetries = 3` starting at
attempt 1.  Returns the result together with the event trace.  The input text
only appears in the request body, which the environment abstracts, so it does
not influence the modelled control flow. -/
def generateEmbedding (apiKey : Option String) (text : String)
    (env : Nat → FetchOutcome) : Except JinaError (List Int) × List Event :=
  if jsTruthyStr apiKey = false then (.error .configError, [])
  else runAttempts env 3 1

/-- The result row of the `user_preferences` single-row query. -/
structure PrefRow where
  skills : List String
deriving DecidableEq

/-- `generateUserSkillsEmbedding` (lines 105-130), with the module-level
`cachedUserSkillsEmbedding` passed in and returned explicitly.
`prefsResult = none` models `error || !prefs` from the supabase query.
If the cache holds a vector it is returned with no events at all; otherwise
the preference row is read (one `prefQuery` event), validated, joined with
`', '`, and handed to `generateEmbedding`; on success the cache is set. -/
def generateUserSkillsEmbedding (apiKey : Option String)
    (prefsResult : Option PrefRow) (env : Nat → FetchOutcome)
    (cache : Option (List Int)) :
    Except JinaError (List Int) × Option (List Int) × List Event :=
  match cache with
  | some v => (.ok v, some v, [])
  | none =>
      match prefsResult with
      | none => (.error .prefsNotSet, none, [.prefQuery])
      | some row =>
          if row.skills.length = 0 then (.error .prefsNotSet, none, [.prefQuery])
          else
            let skillsText := String.intercalate ", " row.skills
            let r := generateEmbedding apiKey skillsText env
            match r.1 with
            | .ok v => (.ok v, some v, .prefQuery :: r.2)
            | .error e => (.error e, none, .prefQuery :: r.2)

/-- `clearUserSkillsCache` (lines 133-135): reset the cache slot. -/
def clearUserSkillsCache (_cache : Option (List Int)) : Option (List Int) :=
  none

/-- Whether an event is an HTTP request to the embedding provider. -/
def isReq : Event → Bool
  | .request _ => true
  | _ => false

/-- Number of provider requests in a trace. -/
def numRequests (tr : List Event) : Nat :=
  (tr.filter isReq).length

/-- The embedding vector a fetch outcome carries, when it is a success-status
response whose body passes the source's shape and length validation. -/
def respVector : FetchOutcome → Option (List Int)
  | .throw _ => none
  | .resp status _ json =>
      if 200 ≤ status ∧ status ≤ 299 then
        match parseEmbedding json with
        | .ok v => some v
        | .error _ => none
      else none

/-! ### The manual pipeline-trigger control -/

/-- The fields of the parsed trigger-endpoint response the component reads:
the optional chains `data.scraped?.jobsScraped` and `data.processed?.success`
(each `none` when any link of the chain is absent) and `data.error`. -/
structure TriggerBody where
  scrapedJobsScraped : Option Nat
  processedSuccess : Option Nat
  error : Option String
deriving DecidableEq

/-- A delivered (and JSON-parsed) trigger-endpoint response. -/
structure TriggerResponse where
  status : Nat
  body : TriggerBody
deriving DecidableEq

/-- The `result` state the component sets. -/
structure TriggerResult where
  success : Bool
  message : String
deriving DecidableEq

/-- JS `s || d` for the string field `data.error`: `undefined`/absent and the
empty string fall back to the default. -/
def jsOrStr (s : Option String) (d : String) : String :=
  match s with
  | some v => if v.isEmpty then d else v
  | none => d

/-- The success message of the trigger control, with both counts. -/
def successMessage (jobsScraped jobsProcessed : Nat) : String :=
  "✅ Success! " ++ toString jobsScraped ++ " jobs scraped, "
    ++ toString jobsProcessed ++ " processed"

/-- `handleTrigger` (component `ManualPipelineTrigger`): its input is what the
`fetch` + `response.json()` pair does — throw (an `Error` with a message, or a
non-`Error` value rendered as `Network error`) or deliver a parsed response.
`response.ok` is status 200-299.  `data.scraped?.jobsScraped || 0` and
`data.processed?.success || 0` default absent counts to 0. -/
def handleTrigger (outcome : Except (Option String) TriggerResponse) :
    TriggerResult :=
  match outcome with
  | .ok r =>
      if 200 ≤ r.status ∧ r.status ≤ 299 then
        { success := true
          message := successMessage (r.body.scrapedJobsScraped.getD 0)
            (r.body.processedSuccess.getD 0) }
      else
        { success := false
          message := "❌ Error: " ++ jsOrStr r.body.error "Failed to run pipeline" }
  | .error e =>
      { success := false
        message := "❌ Error: " ++ (match e with | some m => m | none => "Network error") }

/-! ### Helper lemmas -/

/-- Unfolding the attempt loop at an attempt the guard admits. -/
theorem runAttempts_step (env : Nat → FetchOutcome) (m attempt : Nat)
    (h : attempt ≤ m) :
    runAttempts env m attempt =
      match tryBody env m attempt with
      | .ret v => (.ok v, [.request attempt])
      | .cont w =>
          ((runAttempts env m (attempt + 1)).1,
            .request attempt :: .wait w :: (runAttempts env m (attempt + 1)).2)
      | .thrown e =>
          if attempt = m then (.error e, [.request attempt])
          else
            ((runAttempts env m (attempt + 1)).1,
              .request attempt :: .wait (2 ^ attempt * 2000)
                :: (runAttempts env m (attempt + 1)).2) := by
  have hf : m + 1 - attempt = (m - attempt) + 1 := by omega
  have hf2 : m - attempt = m + 1 - (attempt + 1) := by omega
  unfold runAttempts
  rw [hf, runAttemptsAux, hf2]

/-- The `continue` paths only arise while attempts remain. -/
theorem tryBody_cont_lt (env : Nat → FetchOutcome) (m attempt w : Nat)
    (h : tryBody env m attempt = .cont w) : attempt < m := by
  unfold tryBody at h
  cases henv : env attempt with
  | throw e => rw [henv] at h; exact absurd h (by simp)
  | resp status errorText json =>
      rw [henv] at h
      dsimp only at h
      by_cases hok : 200 ≤ status ∧ status ≤ 299
      · rw [if_pos hok] at h
        cases hp : parseEmbedding json <;> rw [hp] at h <;> simp at h
      · rw [if_neg hok] at h
        by_cases h429 : status = 429 ∧ attempt < m
        · exact h429.2
        · rw [if_neg h429] at h
          by_cases h500 : 500 ≤ status ∧ attempt < m
          · exact h500.2
          · rw [if_neg h500] at h; simp at h

/-- The `try` block never throws the defensive fallback error. -/
theorem tryBody_thrown_ne (env : Nat → FetchOutcome) (m attempt : Nat)
    (e : JinaError) (h : tryBody env m attempt = .thrown e) :
    e ≠ .allRetriesFailed := by
  unfold tryBody at h
  cases henv : env attempt with
  | throw s => rw [henv] at h; simp at h; simp [← h]
  | resp status errorText json =>
      rw [henv] at h
      dsimp only at h
      by_cases hok : 200 ≤ status ∧ status ≤ 299
      · rw [if_pos hok] at h
        cases hp : parseEmbedding json with
        | ok v => rw [hp] at h; simp at h
        | error e2 =>
            rw [hp] at h
            simp at h
            subst h
            unfold parseEmbedding at hp
            cases hd : json.data with
            | missing => rw [hd] at hp; simp at hp; simp [← hp]
            | notArray => rw [hd] at hp; simp at hp; simp [← hp]
            | arr items =>
                rw [hd] at hp
                match items with
                | [] => simp at hp; simp [← hp]
                | .falsy :: _ => simp at hp; simp [← hp]
                | .obj .notArr :: _ => simp at hp; simp [← hp]
                | .obj (.arr v) :: _ =>
                    simp only at hp
                    by_cases hl : v.length ≠ 768
                    · rw [if_pos hl] at hp; simp at hp; simp [← hp]
                    · rw [if_neg hl] at hp; simp at hp
      · rw [if_neg hok] at h
        by_cases h429 : status = 429 ∧ attempt < m
        · rw [if_pos h429] at h; simp at h
        · rw [if_neg h429] at h
          by_cases h500 : 500 ≤ status ∧ attempt < m
          · rw [if_pos h500] at h; simp at h
          · rw [if_neg h500] at h; simp at h; simp [← h]

/-- A vector that survives validation has exactly 768 entries. -/
theorem parseEmbedding_ok_length (json : RespJson) (v : List Int)
    (h : parseEmbedding json = .ok v) : v.length = 768 := by
  unfold parseEmbedding at h
  cases hd : json.data with
  | missing => rw [hd] at h; simp at h
  | notArray => rw [hd] at h; simp at h
  | arr items =>
      rw [hd] at h
      match items with
      | [] => simp at h
      | .falsy :: _ => simp at h
      | .obj .notArr :: _ => simp at h
      | .obj (.arr w) :: _ =>
          simp only at h
          by_cases hl : w.length ≠ 768
          · rw [if_pos hl] at h; simp at h
          · rw [if_neg hl] at h
            simp at h
            subst h
            omega

/-- A fetch throw makes the `try` block throw the network error. -/
theorem tryBody_of_throw (env : Nat → FetchOutcome) (m attempt : Nat)
    (s : String) (henv : env attempt = .throw s) :
    tryBody env m attempt = .thrown (.networkError s) := by
  unfold tryBody; rw [henv]

/-- A success-status response makes the `try` block act as its parsed body:
return the validated vector, or throw the validation error. -/
theorem tryBody_of_ok (env : Nat → FetchOutcome) (m attempt status : Nat)
    (b : String) (json : RespJson)
    (henv : env attempt = .resp status b json)
    (hok : 200 ≤ status ∧ status ≤ 299) :
    tryBody env m attempt =
      match parseEmbedding json with
      | .ok v => .ret v
      | .error e => .thrown e := by
  unfold tryBody; rw [henv]; dsimp only; rw [if_pos hok]

/-- A 429 response with attempts remaining: wait `2^attempt * 5000`, continue. -/
theorem tryBody_of_429 (env : Nat → FetchOutcome) (m attempt : Nat)
    (b : String) (json : RespJson)
    (henv : env attempt = .resp 429 b json) (hlt : attempt < m) :
    tryBody env m attempt = .cont (2 ^ attempt * 5000) := by
  unfold tryBody; rw [henv]; dsimp only
  rw [if_neg (by omega : ¬(200 ≤ 429 ∧ 429 ≤ 299)), if_pos ⟨rfl, hlt⟩]

/-- A ≥500 response with attempts remaining: wait 5000, continue. -/
theorem tryBody_of_500 (env : Nat → FetchOutcome) (m attempt status : Nat)
    (b : String) (json : RespJson)
    (henv : env attempt = .resp status b json)
    (h5 : 500 ≤ status) (hlt : attempt < m) :
    tryBody env m attempt = .cont 5000 := by
  unfold tryBody; rw [henv]; dsimp only
  rw [if_neg (by omega : ¬(200 ≤ status ∧ status ≤ 299)),
    if_neg (by omega : ¬(status = 429 ∧ attempt < m)), if_pos ⟨h5, hlt⟩]

/-- Any other non-success response — or any non-success response once no
attempts remain — throws the provider error with the status and body. -/
theorem tryBody_of_other (env : Nat → FetchOutcome) (m attempt status : Nat)
    (b : String) (json : RespJson)
    (henv : env attempt = .resp status b json)
    (hok : ¬(200 ≤ status ∧ status ≤ 299))
    (h429 : ¬(status = 429 ∧ attempt < m))
    (h500 : ¬(500 ≤ status ∧ attempt < m)) :
    tryBody env m attempt = .thrown (.providerStatus status b) := by
  unfold tryBody; rw [henv]; dsimp only
  rw [if_neg hok, if_neg h429, if_neg h500]

/-- Whatever the loop returns was returned by the `try` block of one of the
attempts it ran, verbatim. -/
theorem runAttemptsAux_ok_source (env : Nat → FetchOutcome) (m : Nat) :
    ∀ fuel attempt v, (runAttemptsAux env m fuel attempt).1 = .ok v →
      ∃ n, attempt ≤ n ∧ n < attempt + fuel ∧ tryBody env m n = .ret v := by
  intro fuel
  induction fuel with
  | zero => intro attempt v h; simp [runAttemptsAux] at h
  | succ f ih =>
      intro attempt v h
      rw [runAttemptsAux] at h
      cases htb : tryBody env m attempt with
      | ret w =>
          rw [htb] at h
          simp at h
          exact ⟨attempt, le_refl _, by omega, by rw [htb, h]⟩
      | cont w =>
          rw [htb] at h
          simp only at h
          obtain ⟨n, h1, h2, h3⟩ := ih (attempt + 1) v h
          exact ⟨n, by omega, by omega, h3⟩
      | thrown e =>
          rw [htb] at h
          simp only at h
          by_cases hm : attempt = m
          · rw [if_pos hm] at h; simp at h
          · rw [if_neg hm] at h
            simp only at h
            obtain ⟨n, h1, h2, h3⟩ := ih (attempt + 1) v h
            exact ⟨n, by omega, by omega, h3⟩

/-- A `try`-block return comes verbatim from the attempt's response: the
response has a success status and its validated embedding field is exactly
the returned vector. -/
theorem tryBody_ret_respVector (env : Nat → FetchOutcome) (m attempt : Nat)
    (v : List Int) (h : tryBody env m attempt = .ret v) :
    respVector (env attempt) = some v := by
  unfold tryBody at h
  cases henv : env attempt with
  | throw s => rw [henv] at h; simp at h
  | resp status b json =>
      rw [henv] at h
      dsimp only at h
      unfold respVector
      dsimp only
      by_cases hok : 200 ≤ status ∧ status ≤ 299
      · rw [if_pos hok] at h
        rw [if_pos hok]
        cases hp : parseEmbedding json with
        | ok w => rw [hp] at h; simp at h; rw [h]
        | error e => rw [hp] at h; simp at h
      · rw [if_neg hok] at h
        by_cases h429 : status = 429 ∧ attempt < m
        · rw [if_pos h429] at h; simp at h
        · rw [if_neg h429] at h
          by_cases h500 : 500 ≤ status ∧ attempt < m
          · rw [if_pos h500] at h; simp at h
          · rw [if_neg h500] at h; simp at h

/-- Started with fuel matching the loop bound, the loop never reaches the
fuel-exhausted fallback: every iteration either returns, throws, or moves on
with the guard still satisfiable. -/
theorem runAttemptsAux_ne_fallback (env : Nat → FetchOutcome) (m : Nat) :
    ∀ fuel attempt, attempt + fuel = m + 1 → 1 ≤ fuel →
      (runAttemptsAux env m fuel attempt).1 ≠ .error .allRetriesFailed := by
  intro fuel
  induction fuel with
  | zero => intro attempt h1 h2; omega
  | succ f ih =>
      intro attempt h1 _
      rw [runAttemptsAux]
      cases htb : tryBody env m attempt with
      | ret v => simp
      | cont w =>
          have hlt := tryBody_cont_lt env m attempt w htb
          simp only
          exact ih (attempt + 1) (by omega) (by omega)
      | thrown e =>
          simp only
          by_cases hm : attempt = m
          · rw [if_pos hm]
            have := tryBody_thrown_ne env m attempt e htb
            simp [this]
          · rw [if_neg hm]
            simp only
            exact ih (attempt + 1) (by omega) (by omega)

/-! ### Concrete environments used to exercise the theorems -/

/-- A well-formed 768-entry embedding vector. -/
def vec768 : List Int := List.replicate 768 0

/-- A well-formed success body carrying `vec768`. -/
def goodJson : RespJson := ⟨.arr [.obj (.arr vec768)]⟩

/-- Provider that always fails with a plain 400. -/
def envBad : Nat → FetchOutcome := fun _ => .resp 400 "bad" ⟨.missing⟩

/-- Provider whose first response is a 400 and which then recovers. -/
def envBadThenGood : Nat → FetchOutcome := fun n =>
  if n = 1 then .resp 400 "bad request" ⟨.missing⟩ else .resp 200 "" goodJson

/-- Provider whose first response is a success-status body with a 1-entry
embedding and which then recovers. -/
def envShortThenGood : Nat → FetchOutcome := fun n =>
  if n = 1 then .resp 200 "" ⟨.arr [.obj (.arr [5])]⟩ else .resp 200 "" goodJson

/-- Provider that is rate limited twice and then succeeds. -/
def envRateLimited : Nat → FetchOutcome := fun n =>
  if n ≤ 2 then .resp 429 "slow down" ⟨.missing⟩ else .resp 200 "" goodJson

/-- Provider that always answers 500, with the attempt number in the body. -/
def envServerDown : Nat → FetchOutcome := fun n => .resp 500 (toString n) ⟨.missing⟩

/-- Provider whose fetches always throw. -/
def envAllThrow : Nat → FetchOutcome := fun _ => .throw "socket hang up"

/-- Provider that always succeeds immediately. -/
def envGood : Nat → FetchOutcome := fun _ => .resp 200 "" goodJson

/-- Provider that always answers a success status with a 1-entry embedding. -/
def envAlwaysShort : Nat → FetchOutcome :=
  fun _ => .resp 200 "" ⟨.arr [.obj (.arr [5])]⟩

/-! ### The claims -/

/-- C7: with no API credential configured (the `JINA_API_KEY` variable absent
or empty, i.e. falsy), `generateEmbedding` fails immediately with the
ConfigError `JINA_API_KEY environment variable is not set`, and its trace is
empty: zero network calls, zero waits, so no retries. -/
theorem generateEmbedding_no_credential (key : Option String) (text : String)
    (env : Nat → FetchOutcome) (hkey : jsTruthyStr key = false) :
    generateEmbedding key text env = (.error .configError, []) := by
  unfold generateEmbedding
  rw [hkey]
  simp

/-- Witness for C7 at the concrete input `key = none`. -/
theorem generateEmbedding_no_credential_witness :
    generateEmbedding none "anything" envGood = (.error .configError, []) :=
  generateEmbedding_no_credential none "anything" envGood (by decide)

/-- C10: the defensive `Failed to generate embedding after all retries` throw
after the `for` loop is unreachable: with a configured credential, the loop
itself always returns a vector or throws first, because `continue` and the
catch-block backoff only happen when `attempt < 3`, and the final attempt
always returns or rethrows. -/
theorem generateEmbedding_fallback_unreachable (key : Option String)
    (text : String) (env : Nat → FetchOutcome)
    (hkey : jsTruthyStr key = true) :
    (generateEmbedding key text env).1 ≠ .error .allRetriesFailed := by
  unfold generateEmbedding
  rw [hkey]
  simp only [Bool.true_eq_false, if_false]
  exact runAttemptsAux_ne_fallback env 3 3 1 (by omega) (by omega)

/-- Witness for C10: a configured key over a provider whose fetches always
throw. -/
theorem generateEmbedding_fallback_unreachable_witness :
    (generateEmbedding (some "key") "text" envAllThrow).1
      ≠ .error .allRetriesFailed :=
  generateEmbedding_fallback_unreachable (some "key") "text" envAllThrow
    (by decide)

/-- C4: an attempt answered 429 with attempts remaining waits exactly
`2^attempt * 5000` ms and retries; in particular, over a provider whose first
two responses are 429 and whose third is a valid success, `generateEmbedding`
makes exactly 3 requests, waits 10000 ms after the first and 20000 ms after
the second, and returns the third response's vector. -/
theorem generateEmbedding_rate_limit_backoff (env : Nat → FetchOutcome) :
    (∀ attempt b json, attempt < 3 → env attempt = .resp 429 b json →
      runAttempts env 3 attempt =
        ((runAttempts env 3 (attempt + 1)).1,
          .request attempt :: .wait (2 ^ attempt * 5000)
            :: (runAttempts env 3 (attempt + 1)).2))
    ∧ (∀ key text b1 b2 j1 j2 s3 b3 j3 v,
        jsTruthyStr key = true →
        env 1 = .resp 429 b1 j1 → env 2 = .resp 429 b2 j2 →
        env 3 = .resp s3 b3 j3 → 200 ≤ s3 ∧ s3 ≤ 299 →
        parseEmbedding j3 = .ok v →
        generateEmbedding key text env =
          (.ok v, [.request 1, .wait 10000, .request 2, .wait 20000,
            .request 3])) := by
  constructor
  · intro attempt b json hlt henv
    rw [runAttempts_step env 3 attempt (by omega),
      tryBody_of_429 env 3 attempt b json henv hlt]
  · intro key text b1 b2 j1 j2 s3 b3 j3 v hkey h1 h2 h3 hok hp
    unfold generateEmbedding
    rw [hkey]
    simp only [Bool.true_eq_false, if_false]
    rw [runAttempts_step env 3 1 (by omega),
      tryBody_of_429 env 3 1 b1 j1 h1 (by omega)]
    simp only
    rw [runAttempts_step env 3 2 (by omega),
      tryBody_of_429 env 3 2 b2 j2 h2 (by omega)]
    simp only
    rw [runAttempts_step env 3 3 (by omega),
      tryBody_of_ok env 3 3 s3 b3 j3 h3 hok, hp]
    norm_num

/-- `vec768` has 768 entries. -/
theorem vec768_length : vec768.length = 768 := by
  unfold vec768
  rw [List.length_replicate]

/-- The canonical good body parses to `vec768`. -/
theorem parseEmbedding_goodJson : parseEmbedding goodJson = .ok vec768 := by
  unfold parseEmbedding goodJson
  simp [vec768_length]

/-- Witness for C4 over the concrete rate-limited provider. -/
theorem generateEmbedding_rate_limit_backoff_witness :
    runAttempts envRateLimited 3 1 =
      ((runAttempts envRateLimited 3 2).1,
        .request 1 :: .wait (2 ^ 1 * 5000) :: (runAttempts envRateLimited 3 2).2)
    ∧ generateEmbedding (some "key") "text" envRateLimited =
        (.ok vec768, [.request 1, .wait 10000, .request 2, .wait 20000,
          .request 3]) :=
  ⟨(generateEmbedding_rate_limit_backoff envRateLimited).1 1 "slow down"
      ⟨.missing⟩ (by decide) rfl,
   (generateEmbedding_rate_limit_backoff envRateLimited).2 (some "key") "text"
      "slow down" "slow down" ⟨.missing⟩ ⟨.missing⟩ 200 "" goodJson vec768
      (by decide) rfl rfl rfl (by decide) parseEmbedding_goodJson⟩

/-- C5: an attempt answered a status ≥ 500 with attempts remaining waits a
fixed 5000 ms and retries; for three consecutive status-500 responses,
`generateEmbedding` makes exactly 3 requests and fails with the ProviderError
`Jina AI API returned 500: ...` carrying the last response's status and
body. -/
theorem generateEmbedding_server_error_backoff (env : Nat → FetchOutcome) :
    (∀ attempt status b json, attempt < 3 → 500 ≤ status →
      env attempt = .resp status b json →
      runAttempts env 3 attempt =
        ((runAttempts env 3 (attempt + 1)).1,
          .request attempt :: .wait 5000 :: (runAttempts env 3 (attempt + 1)).2))
    ∧ (∀ key text b1 b2 b3 j1 j2 j3,
        jsTruthyStr key = true →
        env 1 = .resp 500 b1 j1 → env 2 = .resp 500 b2 j2 →
        env 3 = .resp 500 b3 j3 →
        generateEmbedding key text env =
          (.error (.providerStatus 500 b3),
            [.request 1, .wait 5000, .request 2, .wait 5000, .request 3])) := by
  constructor
  · intro attempt status b json hlt h5 henv
    rw [runAttempts_step env 3 attempt (by omega),
      tryBody_of_500 env 3 attempt status b json henv h5 hlt]
  · intro key text b1 b2 b3 j1 j2 j3 hkey h1 h2 h3
    unfold generateEmbedding
    rw [hkey]
    simp only [Bool.true_eq_false, if_false]
    rw [runAttempts_step env 3 1 (by omega),
      tryBody_of_500 env 3 1 500 b1 j1 h1 (by omega) (by omega)]
    simp only
    rw [runAttempts_step env 3 2 (by omega),
      tryBody_of_500 env 3 2 500 b2 j2 h2 (by omega) (by omega)]
    simp only
    rw [runAttempts_step env 3 3 (by omega),
      tryBody_of_other env 3 3 500 b3 j3 h3 (by omega) (by omega) (by omega)]
    simp

/-- Witness for C5 over the concrete always-500 provider. -/
theorem generateEmbedding_server_error_backoff_witness :
    runAttempts envServerDown 3 1 =
      ((runAttempts envServerDown 3 2).1,
        .request 1 :: .wait 5000 :: (runAttempts envServerDown 3 2).2)
    ∧ generateEmbedding (some "key") "text" envServerDown =
        (.error (.providerStatus 500 "3"),
          [.request 1, .wait 5000, .request 2, .wait 5000, .request 3]) :=
  ⟨(generateEmbedding_server_error_backoff envServerDown).1 1 500 "1"
      ⟨.missing⟩ (by decide) (by decide) rfl,
   (generateEmbedding_server_error_backoff envServerDown).2 (some "key")
      "text" "1" "2" "3" ⟨.missing⟩ ⟨.missing⟩ ⟨.missing⟩
      (by decide) rfl rfl rfl⟩

/-- C6: an attempt whose fetch throws a network-level exception, with attempts
remaining, waits exactly `2^attempt * 2000` ms and retries; a throw on the
final (third) attempt is rethrown to the caller unchanged (and, since the
result is determined by the later attempts alone, intermediate occurrences are
discarded). -/
theorem generateEmbedding_network_exception (env : Nat → FetchOutcome) :
    (∀ attempt s, attempt < 3 → env attempt = .throw s →
      runAttempts env 3 attempt =
        ((runAttempts env 3 (attempt + 1)).1,
          .request attempt :: .wait (2 ^ attempt * 2000)
            :: (runAttempts env 3 (attempt + 1)).2))
    ∧ (∀ s, env 3 = .throw s →
        runAttempts env 3 3 = (.error (.networkError s), [.request 3])) := by
  constructor
  · intro attempt s hlt henv
    rw [runAttempts_step env 3 attempt (by omega),
      tryBody_of_throw env 3 attempt s henv]
    simp only
    rw [if_neg (by omega : ¬attempt = 3)]
  · intro s henv
    rw [runAttempts_step env 3 3 (by omega),
      tryBody_of_throw env 3 3 s henv]
    simp

/-- Witness for C6 over the concrete always-throwing provider. -/
theorem generateEmbedding_network_exception_witness :
    runAttempts envAllThrow 3 1 =
      ((runAttempts envAllThrow 3 2).1,
        .request 1 :: .wait (2 ^ 1 * 2000) :: (runAttempts envAllThrow 3 2).2)
    ∧ runAttempts envAllThrow 3 3 =
        (.error (.networkError "socket hang up"), [.request 3]) :=
  ⟨(generateEmbedding_network_exception envAllThrow).1 1 "socket hang up"
      (by decide) rfl,
   (generateEmbedding_network_exception envAllThrow).2 "socket hang up" rfl⟩

/-- The literal key used in the concrete scenarios is truthy. -/
theorem jsTruthyStr_some_key : jsTruthyStr (some "key") = true := by decide

/-- C1 counterexample: response 1 carries the non-success status 400 — neither
429 nor ≥ 500 — so the claim demands an immediate ProviderError failure with
no further attempts; the code instead catches its own `Jina AI API returned
400` throw in the `catch` block, backs off 4000 ms, issues a second request,
and returns the second response's vector. -/
theorem generateEmbedding_c1_counterexample :
    (generateEmbedding (some "key") "text" envBadThenGood).1 = .ok vec768
    ∧ numRequests (generateEmbedding (some "key") "text" envBadThenGood).2 = 2
    ∧ (generateEmbedding (some "key") "text" envBadThenGood).2
        = [.request 1, .wait 4000, .request 2] := by
  have h1 : envBadThenGood 1 = .resp 400 "bad request" ⟨.missing⟩ := rfl
  have h2 : envBadThenGood 2 = .resp 200 "" goodJson := rfl
  unfold generateEmbedding
  rw [runAttempts_step envBadThenGood 3 1 (by omega),
    tryBody_of_other envBadThenGood 3 1 400 "bad request" ⟨.missing⟩ h1
      (by omega) (by omega) (by omega)]
  simp only
  rw [runAttempts_step envBadThenGood 3 2 (by omega),
    tryBody_of_ok envBadThenGood 3 2 200 "" goodJson h2 (by omega),
    parseEmbedding_goodJson]
  simp [jsTruthyStr_some_key, numRequests, isReq]

/-- C1 (amended): on a non-success status that is neither 429 nor ≥ 500 with
attempts remaining, the `Jina AI API returned ...` throw is caught by the
`catch` block and the call retries after the exception backoff
`2^attempt * 2000` ms; only when a non-success status — of any kind — is met
on the final attempt does `generateEmbedding` fail with the ProviderError
carrying that response's status and body. -/
theorem generateEmbedding_other_nonsuccess (env : Nat → FetchOutcome)
    (status : Nat) (b : String) (json : RespJson) (attempt : Nat)
    (henv : env attempt = .resp status b json)
    (hfail : ¬(200 ≤ status ∧ status ≤ 299)) :
    (attempt = 3 →
      runAttempts env 3 3 = (.error (.providerStatus status b), [.request 3]))
    ∧ (attempt < 3 → status ≠ 429 → status < 500 →
        runAttempts env 3 attempt =
          ((runAttempts env 3 (attempt + 1)).1,
            .request attempt :: .wait (2 ^ attempt * 2000)
              :: (runAttempts env 3 (attempt + 1)).2)) := by
  constructor
  · intro h3
    subst h3
    rw [runAttempts_step env 3 3 (by omega),
      tryBody_of_other env 3 3 status b json henv hfail (by omega) (by omega)]
    simp
  · intro hlt h429 h500
    rw [runAttempts_step env 3 attempt (by omega),
      tryBody_of_other env 3 attempt status b json henv hfail (by omega)
        (by omega)]
    simp only
    rw [if_neg (by omega : ¬attempt = 3)]

/-- Witness for the amended C1 over the concrete always-400 provider. -/
theorem generateEmbedding_other_nonsuccess_witness :
    runAttempts envBad 3 3 = (.error (.providerStatus 400 "bad"), [.request 3])
    ∧ runAttempts envBad 3 1 =
        ((runAttempts envBad 3 2).1,
          .request 1 :: .wait (2 ^ 1 * 2000) :: (runAttempts envBad 3 2).2) :=
  ⟨(generateEmbedding_other_nonsuccess envBad 400 "bad" ⟨.missing⟩ 3 rfl
      (by decide)).1 rfl,
   (generateEmbedding_other_nonsuccess envBad 400 "bad" ⟨.missing⟩ 1 rfl
      (by decide)).2 (by decide) (by decide) (by decide)⟩

/-- C2 counterexample: response 1 has a success status but a 1-entry embedding
(not 768), so the claim demands a ProviderError failure; the code instead
catches its own `Expected 768 dimensions, got 1` throw, backs off 4000 ms,
retries, and returns the second response's vector. -/
theorem generateEmbedding_c2_counterexample :
    (generateEmbedding (some "key") "text" envShortThenGood).1 = .ok vec768
    ∧ numRequests (generateEmbedding (some "key") "text" envShortThenGood).2 = 2
    ∧ (generateEmbedding (some "key") "text" envShortThenGood).2
        = [.request 1, .wait 4000, .request 2] := by
  have h1 : envShortThenGood 1 = .resp 200 "" ⟨.arr [.obj (.arr [5])]⟩ := rfl
  have h2 : envShortThenGood 2 = .resp 200 "" goodJson := rfl
  have hp1 : parseEmbedding ⟨.arr [.obj (.arr [5])]⟩
      = .error (.wrongDimensions 1) := by
    unfold parseEmbedding
    simp
  unfold generateEmbedding
  rw [runAttempts_step envShortThenGood 3 1 (by omega),
    tryBody_of_ok envShortThenGood 3 1 200 "" ⟨.arr [.obj (.arr [5])]⟩ h1
      (by omega), hp1]
  simp only
  rw [runAttempts_step envShortThenGood 3 2 (by omega),
    tryBody_of_ok envShortThenGood 3 2 200 "" goodJson h2 (by omega),
    parseEmbedding_goodJson]
  simp [jsTruthyStr_some_key, numRequests, isReq]

/-- C2 (amended): every vector `generateEmbedding` returns has exactly 768
entries and is exactly the validated embedding of one of the (at most three)
responses, unmodified; a success-status response whose vector field is absent,
not list-shaped, or not exactly 768 entries long makes the attempt throw the
corresponding ProviderError, which is surfaced as the call's failure when it
happens on the final attempt, and on earlier attempts is caught and followed
by a `2^attempt * 2000` ms backoff and a retry. -/
theorem generateEmbedding_vector_validated (env : Nat → FetchOutcome) :
    (∀ key text v, (generateEmbedding key text env).1 = .ok v →
      v.length = 768 ∧ ∃ n, 1 ≤ n ∧ n ≤ 3 ∧ respVector (env n) = some v)
    ∧ (∀ status b json e, env 3 = .resp status b json →
        200 ≤ status ∧ status ≤ 299 → parseEmbedding json = .error e →
        runAttempts env 3 3 = (.error e, [.request 3]))
    ∧ (∀ attempt status b json e, attempt < 3 →
        env attempt = .resp status b json →
        200 ≤ status ∧ status ≤ 299 → parseEmbedding json = .error e →
        runAttempts env 3 attempt =
          ((runAttempts env 3 (attempt + 1)).1,
            .request attempt :: .wait (2 ^ attempt * 2000)
              :: (runAttempts env 3 (attempt + 1)).2)) := by
  refine ⟨?_, ?_, ?_⟩
  · intro key text v h
    unfold generateEmbedding at h
    by_cases hkey : jsTruthyStr key = false
    · rw [if_pos hkey] at h; simp at h
    · rw [if_neg hkey] at h
      unfold runAttempts at h
      norm_num at h
      obtain ⟨n, hn1, hn2, hn3⟩ := runAttemptsAux_ok_source env 3 3 1 v h
      have hv := tryBody_ret_respVector env 3 n v hn3
      refine ⟨?_, n, hn1, by omega, hv⟩
      cases henv : env n with
      | throw s => rw [henv] at hv; simp [respVector] at hv
      | resp status b json =>
          rw [henv] at hv
          unfold respVector at hv
          dsimp only at hv
          by_cases hok : 200 ≤ status ∧ status ≤ 299
          · rw [if_pos hok] at hv
            cases hp : parseEmbedding json with
            | ok w =>
                rw [hp] at hv
                simp at hv
                subst hv
                exact parseEmbedding_ok_length _ _ hp
            | error e => rw [hp] at hv; simp at hv
          · rw [if_neg hok] at hv; simp at hv
  · intro status b json e h3 hok hp
    rw [runAttempts_step env 3 3 (by omega),
      tryBody_of_ok env 3 3 status b json h3 hok, hp]
    simp
  · intro attempt status b json e hlt henv hok hp
    rw [runAttempts_step env 3 attempt (by omega),
      tryBody_of_ok env 3 attempt status b json henv hok, hp]
    simp only
    rw [if_neg (by omega : ¬attempt = 3)]

/-- Witness for the amended C2 over concrete providers: a successful call over
the immediately-good provider, and a malformed success body on the final
attempt. -/
theorem generateEmbedding_vector_validated_witness :
    (vec768.length = 768
      ∧ ∃ n, 1 ≤ n ∧ n ≤ 3 ∧ respVector (envGood n) = some vec768)
    ∧ runAttempts envAlwaysShort 3 3
        = (.error (.wrongDimensions 1), [.request 3]) := by
  constructor
  · have h : (generateEmbedding (some "key") "text" envGood).1 = .ok vec768 := by
      unfold generateEmbedding
      rw [runAttempts_step envGood 3 1 (by omega),
        tryBody_of_ok envGood 3 1 200 "" goodJson rfl (by omega),
        parseEmbedding_goodJson]
      simp [jsTruthyStr_some_key]
    exact (generateEmbedding_vector_validated envGood).1 (some "key") "text"
      vec768 h
  · exact (generateEmbedding_vector_validated envAlwaysShort).2.1 200 ""
      ⟨.arr [.obj (.arr [5])]⟩ (.wrongDimensions 1) rfl (by decide)
      (by unfold parseEmbedding; simp)

/-- C3: once the process-wide cache is populated, every call of
`generateUserSkillsEmbedding` returns the cached vector with an empty event
trace — no network call and no preference lookup — until
`clearUserSkillsCache`; concretely, when the provider answers the first
request, the first call performs one preference lookup and exactly one network
call, the second call performs none, and a call made after a reset repeats the
first call exactly, performing a second network call. -/
theorem generateUserSkillsEmbedding_cached (key : Option String) (row : PrefRow)
    (env : Nat → FetchOutcome) (v : List Int)
    (hkey : jsTruthyStr key = true)
    (hrow : ¬row.skills.length = 0)
    (henv : tryBody env 3 1 = .ret v) :
    generateUserSkillsEmbedding key (some row) env none
      = (.ok v, some v, [.prefQuery, .request 1])
    ∧ (∀ w : List Int, generateUserSkillsEmbedding key (some row) env (some w)
        = (.ok w, some w, []))
    ∧ generateUserSkillsEmbedding key (some row) env
        (generateUserSkillsEmbedding key (some row) env none).2.1
        = (.ok v, some v, [])
    ∧ generateUserSkillsEmbedding key (some row) env
        (clearUserSkillsCache
          (generateUserSkillsEmbedding key (some row) env none).2.1)
        = generateUserSkillsEmbedding key (some row) env none := by
  have hgen : generateEmbedding key (String.intercalate ", " row.skills) env
      = (.ok v, [.request 1]) := by
    unfold generateEmbedding
    rw [hkey]
    simp only [Bool.true_eq_false, if_false]
    rw [runAttempts_step env 3 1 (by omega), henv]
  have hcall1 : generateUserSkillsEmbedding key (some row) env none
      = (.ok v, some v, [.prefQuery, .request 1]) := by
    unfold generateUserSkillsEmbedding
    dsimp only
    rw [if_neg hrow]
    simp only [hgen]
  refine ⟨hcall1, fun w => rfl, ?_, ?_⟩
  · rw [hcall1]; rfl
  · rfl

/-- Witness for C3 over the immediately-good provider. -/
theorem generateUserSkillsEmbedding_cached_witness :
    generateUserSkillsEmbedding (some "key") (some ⟨["sql", "react"]⟩) envGood
        none = (.ok vec768, some vec768, [.prefQuery, .request 1])
    ∧ (∀ w : List Int, generateUserSkillsEmbedding (some "key")
        (some ⟨["sql", "react"]⟩) envGood (some w) = (.ok w, some w, []))
    ∧ generateUserSkillsEmbedding (some "key") (some ⟨["sql", "react"]⟩) envGood
        (generateUserSkillsEmbedding (some "key") (some ⟨["sql", "react"]⟩)
          envGood none).2.1
        = (.ok vec768, some vec768, [])
    ∧ generateUserSkillsEmbedding (some "key") (some ⟨["sql", "react"]⟩) envGood
        (clearUserSkillsCache
          (generateUserSkillsEmbedding (some "key") (some ⟨["sql", "react"]⟩)
            envGood none).2.1)
        = generateUserSkillsEmbedding (some "key") (some ⟨["sql", "react"]⟩)
            envGood none :=
  generateUserSkillsEmbedding_cached (some "key") ⟨["sql", "react"]⟩ envGood
    vec768 (by decide) (by decide)
    (by rw [tryBody_of_ok envGood 3 1 200 "" goodJson rfl (by omega),
      parseEmbedding_goodJson])

/-- C8: with an unpopulated cache, a missing preference record (query error or
no row) or an empty skills list makes `generateUserSkillsEmbedding` fail with
the ConfigError `User preferences not set ...` after the single preference
lookup, with zero network calls. -/
theorem generateUserSkillsEmbedding_no_prefs (key : Option String)
    (prefsResult : Option PrefRow) (env : Nat → FetchOutcome)
    (hpref : prefsResult = none
      ∨ ∃ row, prefsResult = some row ∧ row.skills.length = 0) :
    generateUserSkillsEmbedding key prefsResult env none
      = (.error .prefsNotSet, none, [.prefQuery])
    ∧ numRequests
        (generateUserSkillsEmbedding key prefsResult env none).2.2 = 0 := by
  have h : generateUserSkillsEmbedding key prefsResult env none
      = (.error .prefsNotSet, none, [.prefQuery]) := by
    rcases hpref with h | ⟨row, hrow, hempty⟩
    · rw [h]; rfl
    · rw [hrow]
      unfold generateUserSkillsEmbedding
      dsimp only
      rw [if_pos hempty]
  exact ⟨h, by rw [h]; rfl⟩

/-- Witness for C8: a missing preference record, over a provider that would
succeed. -/
theorem generateUserSkillsEmbedding_no_prefs_witness :
    generateUserSkillsEmbedding (some "key") none envGood none
      = (.error .prefsNotSet, none, [.prefQuery])
    ∧ numRequests
        (generateUserSkillsEmbedding (some "key") none envGood none).2.2 = 0 :=
  generateUserSkillsEmbedding_no_prefs (some "key") none envGood (Or.inl rfl)

/-- C9: the trigger control maps a delivered 2xx response to a success result
whose message carries `scraped.jobsScraped` and `processed.success`, each read
as 0 when absent; a delivered non-2xx response and a thrown error each map to
a failure result with a single human-readable message. -/
theorem handleTrigger_outcomes :
    (∀ r : TriggerResponse, 200 ≤ r.status ∧ r.status ≤ 299 →
      handleTrigger (.ok r) =
        ⟨true, successMessage (r.body.scrapedJobsScraped.getD 0)
          (r.body.processedSuccess.getD 0)⟩)
    ∧ (∀ r : TriggerResponse, ¬(200 ≤ r.status ∧ r.status ≤ 299) →
        handleTrigger (.ok r) =
          ⟨false, "❌ Error: " ++ jsOrStr r.body.error "Failed to run pipeline"⟩)
    ∧ (∀ e, handleTrigger (.error e) =
        ⟨false, "❌ Error: "
          ++ (match e with | some m => m | none => "Network error")⟩) := by
  refine ⟨?_, ?_, ?_⟩
  · intro r hok
    unfold handleTrigger
    dsimp only
    rw [if_pos hok]
  · intro r hok
    unfold handleTrigger
    dsimp only
    rw [if_neg hok]
  · intro e
    rfl

/-- Witness for C9 at three concrete outcomes: a 200 with one count absent, a
500 carrying an error string, and a thrown non-`Error` value. -/
theorem handleTrigger_outcomes_witness :
    handleTrigger (.ok ⟨200, ⟨some 4, none, none⟩⟩)
      = ⟨true, successMessage 4 0⟩
    ∧ handleTrigger (.ok ⟨500, ⟨none, none, some "boom"⟩⟩)
      = ⟨false, "❌ Error: " ++ jsOrStr (some "boom") "Failed to run pipeline"⟩
    ∧ handleTrigger (.error none) = ⟨false, "❌ Error: Network error"⟩ :=
  ⟨handleTrigger_outcomes.1 ⟨200, ⟨some 4, none, none⟩⟩ (by decide),
   handleTrigger_outcomes.2.1 ⟨500, ⟨none, none, some "boom"⟩⟩ (by decide),
   handleTrigger_outcomes.2.2 none⟩
